import Mathlib

/-!
Verification of the SRG Workshop Streamlit dashboard scripts.

This file gives a shallow embedding of the client-side logic of the
dashboard scripts (`01B_data_quality_dashboard.py`,
`03_risk_analytics_dashboard.py`, `04_governance_dashboard.py`) and proves
properties of it:

* the drill-down resolver `get_problematic_records` (dispatch of a
  `(table_name, metric_name)` pair to a SQL query, execution, fallback and
  error handling);
* the semantics of the fixed SQL templates the resolver emits, as list
  transformations (filter, sort, limit) over an abstract database;
* `parse_broker_performance_analysis` (tolerant JSON-blob parsing);
* `calculate_compliance_score`;
* the top-level fetch-then-guard structure of the three dashboard module
  bodies (`st.stop()` guards).

External effects are made explicit: query execution is a function argument
`SqlQuery → Except String (List Row)` (Snowflake raising an exception is
the `Except.error` case), Streamlit banners are values of type `Msg`
collected in a list, and Python `json.loads` is a function argument
`String → Except Unit PyVal`.
-/

namespace SRGWorkshop

/-- Python `str.upper()`. The scripts only ever pass ASCII identifiers, for
which `Char.toUpper` agrees with Python case mapping. -/
def pyUpper (s : String) : String := String.mk (s.data.map Char.toUpper)

/-- A row of the `CUSTOMERS_RAW` table (only the columns the embedded SQL
predicates read: `POLICY_NUMBER`, `AGE`, `BROKER_ID`; `SELECT *` returns the
whole row, modelled as this record). A `none` field is a SQL `NULL`. -/
structure CustomerRow where
  policy_number : Option String
  age : Option Int
  broker_id : Option String
deriving Repr, DecidableEq

/-- A row of the `CLAIMS_RAW`-derived views (only `POLICY_NUMBER` is read by
the embedded queries). -/
structure ClaimRow where
  policy_number : Option String
deriving Repr, DecidableEq

/-- A result row of an executed query. Rows of tables other than
`CUSTOMERS_RAW` / `CLAIMS_RAW` (reachable only through the fallback query)
are opaque. -/
inductive Row where
  | customer (r : CustomerRow)
  | claim (r : ClaimRow)
  | generic (cells : List String)
deriving Repr, DecidableEq

/-- The remote state the embedded SQL templates read: the raw customers
table and the four pre-built `SYSTEM$DATA_METRIC_SCAN` views of schema
`INSURANCE_WORKSHOP_DB.RAW_DATA`. `other_tables` maps any other table name
to its contents, already in `ORDER BY 1` order (the fallback query orders by
the first column of an unknown schema, which the embedding does not
re-derive). -/
structure Database where
  customers_raw : List CustomerRow
  customers_with_null_policy_numbers : List CustomerRow
  customers_with_duplicate_policies : List CustomerRow
  claims_with_null_policy_numbers : List ClaimRow
  claims_with_duplicate_policies : List ClaimRow
  other_tables : String → List Row

/-- A Streamlit banner: `st.error` / `st.warning` / `st.info` /
`st.success`. -/
inductive Msg where
  | error (text : String)
  | warning (text : String)
  | info (text : String)
  | success (text : String)
deriving Repr, DecidableEq

/-- The DMF predicate of the `INVALID_CUSTOMER_AGE_COUNT` query:
`AGE IS NOT NULL AND (AGE < 18 OR AGE > 85)`. -/
def invalidAgePredicate (r : CustomerRow) : Bool :=
  match r.age with
  | Option.none => false
  | some a => decide (a < 18) || decide (85 < a)

/-- The regular expression `^BRK[0-9]{3}$`: exactly the literal `BRK`
followed by three characters of the class `[0-9]`. -/
def matchesBrokerIdPattern (s : String) : Bool :=
  match s.data with
  | [b, r, k, d1, d2, d3] =>
    decide (b = 'B') && decide (r = 'R') && decide (k = 'K')
      && d1.isDigit && d2.isDigit && d3.isDigit
  | _ => false

/-- The DMF predicate of the `INVALID_BROKER_ID_COUNT` query:
`BROKER_ID IS NOT NULL AND NOT REGEXP_LIKE(BROKER_ID, ...)`. -/
def invalidBrokerIdPredicate (r : CustomerRow) : Bool :=
  match r.broker_id with
  | Option.none => false
  | some b => ! matchesBrokerIdPattern b

/-- `ORDER BY ... DESC` key comparison on a nullable integer column
(Snowflake places `NULL` first in descending order; the queries that sort
descending filter `NULL` out beforehand, so the choice is unobservable). -/
def optIntDescLe (x y : Option Int) : Bool :=
  match x, y with
  | Option.none, _ => true
  | some _, Option.none => false
  | some a, some b => decide (b ≤ a)

/-- `ORDER BY ...` (ascending) key comparison on a nullable string column
(Snowflake places `NULL` last in ascending order). -/
def optStrAscLe (x y : Option String) : Bool :=
  match x, y with
  | Option.none, Option.none => true
  | Option.none, some _ => false
  | some _, Option.none => true
  | some a, some b => decide (a ≤ b)

/-- `ORDER BY AGE DESC` as a relation on customer rows. -/
def AgeDesc (r s : CustomerRow) : Prop := optIntDescLe r.age s.age = true

instance : DecidableRel AgeDesc := fun r s =>
  inferInstanceAs (Decidable (optIntDescLe r.age s.age = true))

/-- `ORDER BY POLICY_NUMBER` as a relation on customer rows. -/
def CustPolicyAsc (r s : CustomerRow) : Prop :=
  optStrAscLe r.policy_number s.policy_number = true

instance : DecidableRel CustPolicyAsc := fun r s =>
  inferInstanceAs (Decidable (optStrAscLe r.policy_number s.policy_number = true))

/-- `ORDER BY POLICY_NUMBER` as a relation on claim rows. -/
def ClaimPolicyAsc (r s : ClaimRow) : Prop :=
  optStrAscLe r.policy_number s.policy_number = true

instance : DecidableRel ClaimPolicyAsc := fun r s =>
  inferInstanceAs (Decidable (optStrAscLe r.policy_number s.policy_number = true))

instance : IsTotal CustomerRow AgeDesc where
  total := by
    rintro ⟨pn1, a1, b1⟩ ⟨pn2, a2, b2⟩
    unfold AgeDesc
    dsimp only
    cases a1 <;> cases a2 <;> simp [optIntDescLe]
    omega

instance : IsTrans CustomerRow AgeDesc where
  trans := by
    rintro ⟨pn1, a1, b1⟩ ⟨pn2, a2, b2⟩ ⟨pn3, a3, b3⟩
    unfold AgeDesc
    dsimp only
    cases a1 <;> cases a2 <;> cases a3 <;> simp [optIntDescLe]
    omega

instance : IsTotal CustomerRow CustPolicyAsc where
  total := by
    rintro ⟨pn1, a1, b1⟩ ⟨pn2, a2, b2⟩
    unfold CustPolicyAsc
    dsimp only
    cases pn1 <;> cases pn2 <;> simp [optStrAscLe]
    exact le_total _ _

instance : IsTrans CustomerRow CustPolicyAsc where
  trans := by
    rintro ⟨pn1, a1, b1⟩ ⟨pn2, a2, b2⟩ ⟨pn3, a3, b3⟩
    unfold CustPolicyAsc
    dsimp only
    cases pn1 <;> cases pn2 <;> cases pn3 <;> simp [optStrAscLe]
    exact le_trans

instance : IsTotal ClaimRow ClaimPolicyAsc where
  total := by
    rintro ⟨pn1⟩ ⟨pn2⟩
    unfold ClaimPolicyAsc
    dsimp only
    cases pn1 <;> cases pn2 <;> simp [optStrAscLe]
    exact le_total _ _

instance : IsTrans ClaimRow ClaimPolicyAsc where
  trans := by
    rintro ⟨pn1⟩ ⟨pn2⟩ ⟨pn3⟩
    unfold ClaimPolicyAsc
    dsimp only
    cases pn1 <;> cases pn2 <;> cases pn3 <;> simp [optStrAscLe]
    exact le_trans

/-- `ORDER BY AGE DESC` applied to a customer result set. -/
def sortByAgeDesc (l : List CustomerRow) : List CustomerRow :=
  List.insertionSort AgeDesc l

/-- `ORDER BY POLICY_NUMBER` applied to a customer result set. -/
def sortCustomersByPolicy (l : List CustomerRow) : List CustomerRow :=
  List.insertionSort CustPolicyAsc l

/-- `ORDER BY POLICY_NUMBER` applied to a claim result set. -/
def sortClaimsByPolicy (l : List ClaimRow) : List ClaimRow :=
  List.insertionSort ClaimPolicyAsc l

/-- The SQL texts `get_problematic_records` can build, one constructor per
f-string template in the source (each is a fixed query parameterized only
by the row limit; the fallback is additionally parameterized by the
uppercased table name). -/
inductive SqlQuery where
  | invalidAge (limit : Nat)
  | invalidBrokerId (limit : Nat)
  | customersNullView (limit : Nat)
  | customersDupView (limit : Nat)
  | claimsNullView (limit : Nat)
  | claimsDupView (limit : Nat)
  | fallback (tableNameUpper : String) (limit : Nat)
deriving Repr, DecidableEq

/-- The `LIMIT` clause of each template. -/
def SqlQuery.rowLimit : SqlQuery → Nat
  | .invalidAge n => n
  | .invalidBrokerId n => n
  | .customersNullView n => n
  | .customersDupView n => n
  | .claimsNullView n => n
  | .claimsDupView n => n
  | .fallback _ n => n

/-- The SQL text of each template, whitespace-normalized to a single line
(the source builds the same text as an indented multi-line f-string). -/
def SqlQuery.render : SqlQuery → String
  | .invalidAge n =>
    "SELECT * FROM INSURANCE_WORKSHOP_DB.RAW_DATA.CUSTOMERS_RAW WHERE AGE IS NOT NULL AND (AGE < 18 OR AGE > 85) ORDER BY AGE DESC LIMIT "
      ++ toString n
  | .invalidBrokerId n =>
    "SELECT * FROM INSURANCE_WORKSHOP_DB.RAW_DATA.CUSTOMERS_RAW WHERE BROKER_ID IS NOT NULL AND NOT REGEXP_LIKE(BROKER_ID, \x27^BRK[0-9]{3}$\x27) ORDER BY POLICY_NUMBER LIMIT "
      ++ toString n
  | .customersNullView n =>
    "SELECT * FROM INSURANCE_WORKSHOP_DB.RAW_DATA.CUSTOMERS_WITH_NULL_POLICY_NUMBERS ORDER BY POLICY_NUMBER LIMIT "
      ++ toString n
  | .customersDupView n =>
    "SELECT * FROM INSURANCE_WORKSHOP_DB.RAW_DATA.CUSTOMERS_WITH_DUPLICATE_POLICIES ORDER BY POLICY_NUMBER LIMIT "
      ++ toString n
  | .claimsNullView n =>
    "SELECT * FROM INSURANCE_WORKSHOP_DB.RAW_DATA.CLAIMS_WITH_NULL_POLICY_NUMBERS ORDER BY POLICY_NUMBER LIMIT "
      ++ toString n
  | .claimsDupView n =>
    "SELECT * FROM INSURANCE_WORKSHOP_DB.RAW_DATA.CLAIMS_WITH_DUPLICATE_POLICIES ORDER BY POLICY_NUMBER LIMIT "
      ++ toString n
  | .fallback t n =>
    "SELECT * FROM INSURANCE_WORKSHOP_DB.RAW_DATA." ++ t ++ " ORDER BY 1 LIMIT "
      ++ toString n

/-- Meaning of each SQL template over a database: `WHERE` filters, the
`ORDER BY` sorts, `LIMIT` truncates; the four view queries read the
pre-built view instead of evaluating any predicate locally. -/
def SqlQuery.eval (db : Database) : SqlQuery → List Row
  | .invalidAge n =>
    ((sortByAgeDesc (db.customers_raw.filter invalidAgePredicate)).take n).map Row.customer
  | .invalidBrokerId n =>
    ((sortCustomersByPolicy (db.customers_raw.filter invalidBrokerIdPredicate)).take n).map Row.customer
  | .customersNullView n =>
    ((sortCustomersByPolicy db.customers_with_null_policy_numbers).take n).map Row.customer
  | .customersDupView n =>
    ((sortCustomersByPolicy db.customers_with_duplicate_policies).take n).map Row.customer
  | .claimsNullView n =>
    ((sortClaimsByPolicy db.claims_with_null_policy_numbers).take n).map Row.claim
  | .claimsDupView n =>
    ((sortClaimsByPolicy db.claims_with_duplicate_policies).take n).map Row.claim
  | .fallback t n => (db.other_tables t).take n

/-- Executor backed by the template semantics: every query succeeds and
returns its `SqlQuery.eval` rows. -/
def execOn (db : Database) : SqlQuery → Except String (List Row) :=
  fun q => Except.ok (q.eval db)

/-- The dispatch of `get_problematic_records` after both inputs have been
uppercased: the nested `if table_name_upper == ... / if metric_name_upper
== ...` chain of the source, returning `none` exactly when the source
leaves `query` as the empty string. -/
def buildQueryUpper (tU mU : String) (limit : Nat) : Option SqlQuery :=
  if tU = "CUSTOMERS_RAW" then
    if mU = "INVALID_CUSTOMER_AGE_COUNT" then some (SqlQuery.invalidAge limit)
    else if mU = "INVALID_BROKER_ID_COUNT" then some (SqlQuery.invalidBrokerId limit)
    else if mU ∈ ["SNOWFLAKE.CORE.NULL_COUNT", "NULL_COUNT"] then
      some (SqlQuery.customersNullView limit)
    else if mU ∈ ["SNOWFLAKE.CORE.DUPLICATE_COUNT", "DUPLICATE_COUNT"] then
      some (SqlQuery.customersDupView limit)
    else Option.none
  else if tU = "CLAIMS_RAW" then
    if mU ∈ ["SNOWFLAKE.CORE.NULL_COUNT", "NULL_COUNT"] then
      some (SqlQuery.claimsNullView limit)
    else if mU ∈ ["SNOWFLAKE.CORE.DUPLICATE_COUNT", "DUPLICATE_COUNT"] then
      some (SqlQuery.claimsDupView limit)
    else Option.none
  else Option.none

/-- Dispatch on the raw inputs: `table_name_upper = table_name.upper()`,
`metric_name_upper = metric_name.upper()` before any comparison. -/
def buildQuery (table_name metric_name : String) (limit : Nat) : Option SqlQuery :=
  buildQueryUpper (pyUpper table_name) (pyUpper metric_name) limit

/-- The query `get_problematic_records` actually executes: the dispatched
template, or (`if not query:`) the generic fallback over the uppercased
table name. -/
def resolvedQuery (table_name metric_name : String) (limit : Nat) : SqlQuery :=
  match buildQuery table_name metric_name limit with
  | some q => q
  | Option.none => SqlQuery.fallback (pyUpper table_name) limit

/-- The `(table_name_upper, metric_name_upper)` pairs for which the source
has a dedicated query (every branch of the dispatch chain). -/
def dispatchPairs : List (String × String) :=
  [("CUSTOMERS_RAW", "INVALID_CUSTOMER_AGE_COUNT"),
   ("CUSTOMERS_RAW", "INVALID_BROKER_ID_COUNT"),
   ("CUSTOMERS_RAW", "SNOWFLAKE.CORE.NULL_COUNT"),
   ("CUSTOMERS_RAW", "NULL_COUNT"),
   ("CUSTOMERS_RAW", "SNOWFLAKE.CORE.DUPLICATE_COUNT"),
   ("CUSTOMERS_RAW", "DUPLICATE_COUNT"),
   ("CLAIMS_RAW", "SNOWFLAKE.CORE.NULL_COUNT"),
   ("CLAIMS_RAW", "NULL_COUNT"),
   ("CLAIMS_RAW", "SNOWFLAKE.CORE.DUPLICATE_COUNT"),
   ("CLAIMS_RAW", "DUPLICATE_COUNT")]

/-- Text of the `st.warning` emitted when dispatch falls through. -/
def fallbackWarningText (table_name metric_name : String) : String :=
  "⚠️ No specific query logic found for " ++ table_name ++ " + " ++ metric_name
    ++ ". Using fallback query."

/-- Text of the `st.error` emitted when query execution raises. -/
def execErrorText (table_name metric_name e : String) : String :=
  "Error fetching problematic records for " ++ metric_name ++ " on "
    ++ table_name ++ ": " ++ e

/-- `get_problematic_records(table_name, metric_name, limit=50)` of
`01B_data_quality_dashboard.py`: dispatch on the uppercased pair, fall back
to the generic query with a warning when no branch matched, execute, and on
an execution exception emit an error banner and return an empty result
together with the query that had been constructed. The returned query text
is represented by its `SqlQuery` value. -/
def get_problematic_records (execQuery : SqlQuery → Except String (List Row))
    (table_name metric_name : String) (limit : Nat := 50) :
    (List Row × SqlQuery) × List Msg :=
  let dispatched := buildQuery table_name metric_name limit
  let query := resolvedQuery table_name metric_name limit
  let warnings : List Msg :=
    match dispatched with
    | some _ => []
    | Option.none => [Msg.warning (fallbackWarningText table_name metric_name)]
  match execQuery query with
  | Except.ok rows => ((rows, query), warnings)
  | Except.error e =>
    (([], query), warnings ++ [Msg.error (execErrorText table_name metric_name e)])

/-- The row limit `display_drill_down_analysis` hard-codes at its single
call of the resolver. -/
def drillDownLimit : Nat := 100

/-- The call of the resolver inside `display_drill_down_analysis`:
`get_problematic_records(selected_table, selected_metric, 100)`. -/
def display_drill_down_fetch (execQuery : SqlQuery → Except String (List Row))
    (selected_table selected_metric : String) :
    (List Row × SqlQuery) × List Msg :=
  get_problematic_records execQuery selected_table selected_metric drillDownLimit

/-- Age, for stating result-set ordering (`none` for non-customer rows). -/
def rowAge : Row → Option Int
  | Row.customer r => r.age
  | _ => Option.none

/-- Policy number, for stating result-set ordering. -/
def rowPolicy : Row → Option String
  | Row.customer r => r.policy_number
  | Row.claim r => r.policy_number
  | Row.generic _ => Option.none

/-- Descending-age ordering between two result rows, stated on the values
actually present. -/
def RowAgeDescending (x y : Row) : Prop :=
  ∀ a b, rowAge x = some a → rowAge y = some b → b ≤ a

/-- Ascending-policy-number ordering between two result rows, stated on the
values actually present. -/
def RowPolicyAscending (x y : Row) : Prop :=
  ∀ p q, rowPolicy x = some p → rowPolicy y = some q → p ≤ q

/-- `sub` occurs contiguously inside `s`. -/
def strContains (s sub : String) : Prop := ∃ a b, s = a ++ sub ++ b

/-- The customers table of the end-to-end scenario: ages
`[10, 18, 50, 85, 90, NULL]`. -/
def scenarioRows : List CustomerRow :=
  [{ policy_number := some "POL001", age := some 10, broker_id := Option.none },
   { policy_number := some "POL002", age := some 18, broker_id := Option.none },
   { policy_number := some "POL003", age := some 50, broker_id := Option.none },
   { policy_number := some "POL004", age := some 85, broker_id := Option.none },
   { policy_number := some "POL005", age := some 90, broker_id := Option.none },
   { policy_number := some "POL006", age := Option.none, broker_id := Option.none }]

/-- Database holding only the scenario customers table. -/
def scenarioDb : Database :=
  { customers_raw := scenarioRows
    customers_with_null_policy_numbers := []
    customers_with_duplicate_policies := []
    claims_with_null_policy_numbers := []
    claims_with_duplicate_policies := []
    other_tables := fun _ => [] }

/-- A Python value, as far as `parse_broker_performance_analysis` can
observe one (a JSON-decoded value or the raw argument). Dictionaries are
association lists whose first binding for a key wins. -/
inductive PyVal where
  | none
  | bool (b : Bool)
  | num (x : ℚ)
  | str (s : String)
  | list (xs : List PyVal)
  | dict (entries : List (String × PyVal))

/-- Python `dict.get(key, default)`. -/
def pyDictGet (entries : List (String × PyVal)) (key : String) (default : PyVal) : PyVal :=
  match entries.lookup key with
  | some v => v
  | Option.none => default

/-- The record `parse_broker_performance_analysis` builds: exactly the
seven component fields it extracts. -/
structure PerfAnalysis where
  total_score : PyVal
  performance_tier : PyVal
  satisfaction_component : PyVal
  experience_component : PyVal
  training_component : PyVal
  portfolio_component : PyVal
  risk_management_component : PyVal

/-- The seven `performance.get(...)` extractions of the source, with their
literal defaults. -/
def perfFromEntries (entries : List (String × PyVal)) : PerfAnalysis :=
  { total_score := pyDictGet entries "total_score" (PyVal.num 0)
    performance_tier := pyDictGet entries "performance_tier" (PyVal.str "UNKNOWN")
    satisfaction_component := pyDictGet entries "satisfaction_component" (PyVal.num 0)
    experience_component := pyDictGet entries "experience_component" (PyVal.num 0)
    training_component := pyDictGet entries "training_component" (PyVal.num 0)
    portfolio_component := pyDictGet entries "portfolio_component" (PyVal.num 0)
    risk_management_component := pyDictGet entries "risk_management_component" (PyVal.num 0) }

/-- `parse_broker_performance_analysis(performance_json)` of
`03_risk_analytics_dashboard.py`. `loads` is Python `json.loads`
(`Except.error` is a decode exception). A string input is decoded; a dict
input is used as is; any other input returns `None`; and the bare `except`
returns `None` both when decoding raises and when the decoded value is not
a dict (the `performance.get` attribute error). -/
def parse_broker_performance_analysis (loads : String → Except Unit PyVal) :
    PyVal → Option PerfAnalysis
  | PyVal.str s =>
    match loads s with
    | Except.ok (PyVal.dict entries) => some (perfFromEntries entries)
    | _ => Option.none
  | PyVal.dict entries => some (perfFromEntries entries)
  | _ => Option.none

/-- A row of `GOVERNANCE.POLICY_ENFORCEMENT_LOG` as read by
`calculate_compliance_score` (only `ENFORCEMENT_STATUS` is consulted). -/
structure PolicyRow where
  policy_name : String
  enforcement_status : String
deriving Repr, DecidableEq

/-- `calculate_compliance_score(policy_data)` of `04_governance_dashboard.py`,
with the exact arithmetic carried out in `ℚ` (the counts are integers, so
the Python float computation is exact whenever the quotient is
representable; the claims stated about it are representation-independent). -/
def calculate_compliance_score (policy_data : List PolicyRow) : ℚ :=
  if policy_data.isEmpty then 0
  else
    let total_policies := policy_data.length
    let compliant_policies :=
      (policy_data.filter fun r => decide (r.enforcement_status = "ENFORCED")).length
    if 0 < total_policies then ((compliant_policies : ℚ) / (total_policies : ℚ)) * 100
    else 0

/-- Whether a dashboard module body ran to its last statement or was cut
short by `st.stop()`. -/
inductive RenderOutcome where
  | finished
  | haltedEarly
deriving Repr, DecidableEq

/-- A whole page render: its outcome and the banners it emitted. -/
structure PageRun where
  outcome : RenderOutcome
  msgs : List Msg
deriving Repr, DecidableEq

/-- Outcomes of the individual remote reads of
`get_quality_monitoring_data` (01B). Each main query yields its row count
on success; the view-existence probes yield the probed count. -/
structure QualitySubFetches where
  entity_scores : Except String Nat
  entity_scores_view_check : Except String Nat
  entity_scores_fallback : Except String Unit
  quality_summary : Except String Nat
  quality_summary_view_check : Except String Nat
  quality_summary_fallback : Except String Unit
  relationship_metrics : Except String Unit
  quality_issues : Except String Unit
  dmf_status : Except String Unit
  row_counts : Except String Unit

/-- Banners of the nested view-existence probe run after a primary query of
block `viewName` failed. -/
def viewCheckMsgs (viewName : String) (check : Except String Nat) : List Msg :=
  match check with
  | Except.ok 0 =>
    [Msg.error ("❌ The " ++ viewName ++ " view does not exist. Please run 01_DATA_QUALITY.sql first.")]
  | Except.ok (_ + 1) =>
    [Msg.error "❌ The view exists but query failed. Check permissions and data."]
  | Except.error ve =>
    [Msg.error ("❌ Cannot check view existence: " ++ ve)]

/-- Banners of the `entity_scores` block. The block assigns
`results[entity_scores]` on every path (real data, fallback data, or an
empty frame). -/
def entityScoresMsgs (subs : QualitySubFetches) : List Msg :=
  match subs.entity_scores with
  | Except.ok (n + 1) =>
    [Msg.success ("✅ Successfully fetched entity scores: " ++ toString (n + 1) ++ " entities")]
  | Except.ok 0 => [Msg.info "ℹ️ Entity scores query returned no data"]
  | Except.error e =>
    [Msg.warning ("Could not fetch entity quality scores: " ++ e)]
      ++ viewCheckMsgs "ENTITY_QUALITY_SCORES" subs.entity_scores_view_check
      ++ match subs.entity_scores_fallback with
         | Except.ok _ =>
           [Msg.warning "⚠️ Using fallback data. Run 01_DATA_QUALITY.sql to get real quality metrics."]
         | Except.error fe =>
           [Msg.error ("❌ Even fallback query failed: " ++ fe)]

/-- Banners of the `quality_summary` block; like `entityScoresMsgs`, the
key is assigned on every path. -/
def qualitySummaryMsgs (subs : QualitySubFetches) : List Msg :=
  match subs.quality_summary with
  | Except.ok (n + 1) =>
    [Msg.success ("✅ Successfully fetched quality summary: " ++ toString (n + 1) ++ " records")]
  | Except.ok 0 => [Msg.info "ℹ️ Quality monitoring summary query returned no data"]
  | Except.error e =>
    [Msg.warning ("Could not fetch quality monitoring summary: " ++ e)]
      ++ viewCheckMsgs "QUALITY_MONITORING_SUMMARY" subs.quality_summary_view_check
      ++ [Msg.info "🔄 Attempting fallback: Sample quality summary data..."]
      ++ match subs.quality_summary_fallback with
         | Except.ok _ =>
           [Msg.warning "⚠️ Using fallback quality summary data. Run 01_DATA_QUALITY.sql to get real metrics."]
         | Except.error fe =>
           [Msg.error ("❌ Even fallback quality summary query failed: " ++ fe)]

/-- Banner of a simple assign-or-warn block (`relationship_metrics`,
`quality_issues`, `dmf_status`, `row_counts`): on failure the block warns
with the given prefix and stores an empty frame under its key. -/
def simpleBlockMsgs (warnPrefix : String) (sub : Except String Unit) : List Msg :=
  match sub with
  | Except.ok _ => []
  | Except.error e => [Msg.warning (warnPrefix ++ e)]

/-- `get_quality_monitoring_data()` of `01B_data_quality_dashboard.py`,
reduced to what the module body observes: the set of keys of the returned
dict (every block assigns its key on success and on failure alike, so the
keys are fixed whenever the outer `try` succeeds) and the banners emitted.
The outer `except` returns the empty dict after an error banner. -/
def get_quality_monitoring_data (outer : Except String QualitySubFetches) :
    List String × List Msg :=
  match outer with
  | Except.error e =>
    ([], [Msg.error ("Error fetching quality monitoring data: " ++ e)])
  | Except.ok subs =>
    (["entity_scores", "quality_summary", "relationship_metrics",
      "quality_issues", "dmf_status", "row_counts"],
     entityScoresMsgs subs
       ++ qualitySummaryMsgs subs
       ++ simpleBlockMsgs "Could not fetch relationship metrics: " subs.relationship_metrics
       ++ simpleBlockMsgs "Could not fetch quality issues: " subs.quality_issues
       ++ simpleBlockMsgs "Could not create DMF status: " subs.dmf_status
       ++ simpleBlockMsgs "Could not fetch row counts: " subs.row_counts)

/-- Outcomes of the five sequential queries of `get_risk_analytics_data`
(03). The function has a single `try` around all of them and no per-query
recovery. -/
structure RiskSubFetches where
  risk_dashboard : Except String Unit
  risk_profiles : Except String Unit
  broker_correlation : Except String Unit
  geographic_risk : Except String Unit
  broker_matrix : Except String Unit

/-- The first exception raised inside the single `try` of
`get_risk_analytics_data`, in query order, if any. -/
def firstRiskError (subs : RiskSubFetches) : Option String :=
  match subs.risk_dashboard with
  | Except.error e => some e
  | Except.ok _ =>
    match subs.risk_profiles with
    | Except.error e => some e
    | Except.ok _ =>
      match subs.broker_correlation with
      | Except.error e => some e
      | Except.ok _ =>
        match subs.geographic_risk with
        | Except.error e => some e
        | Except.ok _ =>
          match subs.broker_matrix with
          | Except.error e => some e
          | Except.ok _ => Option.none

/-- `get_risk_analytics_data()` of `03_risk_analytics_dashboard.py`: all
five keys on success; the empty dict (plus an error banner) as soon as any
query raises. -/
def get_risk_analytics_data (subs : RiskSubFetches) : List String × List Msg :=
  match firstRiskError subs with
  | some e => ([], [Msg.error ("Error fetching risk analytics data: " ++ e)])
  | Option.none =>
    (["risk_dashboard", "risk_profiles", "broker_correlation",
      "geographic_risk", "broker_matrix"], [])

/-- Outcomes of the six sequential queries of `get_governance_data` (04),
likewise under one `try` with no per-query recovery. -/
structure GovernanceSubFetches where
  policy_enforcement : Except String Unit
  masking_policies : Except String Unit
  tag_compliance : Except String Unit
  row_access_policies : Except String Unit
  classification_summary : Except String Unit
  entity_governance : Except String Unit

/-- The first exception raised inside the single `try` of
`get_governance_data`, in query order, if any. -/
def firstGovernanceError (subs : GovernanceSubFetches) : Option String :=
  match subs.policy_enforcement with
  | Except.error e => some e
  | Except.ok _ =>
    match subs.masking_policies with
    | Except.error e => some e
    | Except.ok _ =>
      match subs.tag_compliance with
      | Except.error e => some e
      | Except.ok _ =>
        match subs.row_access_policies with
        | Except.error e => some e
        | Except.ok _ =>
          match subs.classification_summary with
          | Except.error e => some e
          | Except.ok _ =>
            match subs.entity_governance with
            | Except.error e => some e
            | Except.ok _ => Option.none

/-- `get_governance_data()` of `04_governance_dashboard.py`. -/
def get_governance_data (subs : GovernanceSubFetches) : List String × List Msg :=
  match firstGovernanceError subs with
  | some e => ([], [Msg.error ("Error fetching governance data: " ++ e)])
  | Option.none =>
    (["policy_enforcement", "masking_policies", "tag_compliance",
      "row_access_policies", "classification_summary", "entity_governance"], [])

/-- `get_access_monitoring()` of 04: on failure it warns and returns an
empty frame; the module body never stops because of it. -/
def get_access_monitoring (sub : Except String Unit) : List Msg :=
  match sub with
  | Except.ok _ => []
  | Except.error e => [Msg.warning ("Access monitoring data not available: " ++ e)]

/-- The module body of `01B_data_quality_dashboard.py` from the fetch to
the end, at the granularity of its stop guard: `if not quality_data:
st.error(...); st.stop()`. After the guard the body contains no further
`st.stop` or bare raise; every later section tests its own key for
emptiness and renders an informational banner instead of content, so the
render finishes. -/
def run_quality_dashboard (outer : Except String QualitySubFetches) : PageRun :=
  let fetched := get_quality_monitoring_data outer
  if fetched.1.isEmpty then
    { outcome := RenderOutcome.haltedEarly
      msgs := fetched.2
        ++ [Msg.error "Unable to load quality monitoring data. Please check your session context."] }
  else { outcome := RenderOutcome.finished, msgs := fetched.2 }

/-- The module body of `03_risk_analytics_dashboard.py` from the fetch to
the end (guard: `if not risk_data: st.error(...); st.stop()`). -/
def run_risk_dashboard (subs : RiskSubFetches) : PageRun :=
  let fetched := get_risk_analytics_data subs
  if fetched.1.isEmpty then
    { outcome := RenderOutcome.haltedEarly
      msgs := fetched.2
        ++ [Msg.error "Unable to load risk analytics data. Please check your session context."] }
  else { outcome := RenderOutcome.finished, msgs := fetched.2 }

/-- The module body of `04_governance_dashboard.py` from the two fetches to
the end (guard: `if not governance_data: st.error(...); st.stop()`; the
access-monitoring fetch is not guarded). -/
def run_governance_dashboard (subs : GovernanceSubFetches)
    (access : Except String Unit) : PageRun :=
  let fetched := get_governance_data subs
  let accessMsgs := get_access_monitoring access
  if fetched.1.isEmpty then
    { outcome := RenderOutcome.haltedEarly
      msgs := fetched.2 ++ accessMsgs
        ++ [Msg.error "Unable to load governance data. Please check your session context."] }
  else { outcome := RenderOutcome.finished, msgs := fetched.2 ++ accessMsgs }

/-- A risk-dashboard render in which the very first query of
`get_risk_analytics_data` raises (for example because the Dynamic Table has
not been created) and every other remote read would have succeeded. -/
def riskFirstQueryDown : RiskSubFetches :=
  { risk_dashboard :=
      Except.error "SQL compilation error: Object RISK_INTELLIGENCE_DASHBOARD does not exist or not authorized."
    risk_profiles := Except.ok ()
    broker_correlation := Except.ok ()
    geographic_risk := Except.ok ()
    broker_matrix := Except.ok () }

/-- A concrete `json.loads` behavior used to exercise the parser: one
string decodes to an object, every other string raises. -/
def loads0 : String → Except Unit PyVal := fun s =>
  if s = "valid" then Except.ok (PyVal.dict [("total_score", PyVal.num 88)])
  else Except.error ()

/-- A concrete two-row policy-enforcement log: one enforced, one pending. -/
def samplePolicies : List PolicyRow :=
  [{ policy_name := "customer_pii_mask", enforcement_status := "ENFORCED" },
   { policy_name := "region_row_access", enforcement_status := "PENDING" }]

/-! ### General lemmas about the embedding -/

theorem sortByAgeDesc_perm (l : List CustomerRow) : (sortByAgeDesc l).Perm l :=
  List.perm_insertionSort AgeDesc l

theorem sortCustomersByPolicy_perm (l : List CustomerRow) :
    (sortCustomersByPolicy l).Perm l :=
  List.perm_insertionSort CustPolicyAsc l

theorem sortClaimsByPolicy_perm (l : List ClaimRow) : (sortClaimsByPolicy l).Perm l :=
  List.perm_insertionSort ClaimPolicyAsc l

theorem take_sortByAgeDesc_pairwise (l : List CustomerRow) (n : Nat) :
    ((sortByAgeDesc l).take n).Pairwise AgeDesc :=
  (List.sorted_insertionSort AgeDesc l).sublist (List.take_sublist n _)

theorem take_sortCustomersByPolicy_pairwise (l : List CustomerRow) (n : Nat) :
    ((sortCustomersByPolicy l).take n).Pairwise CustPolicyAsc :=
  (List.sorted_insertionSort CustPolicyAsc l).sublist (List.take_sublist n _)

theorem take_sortClaimsByPolicy_pairwise (l : List ClaimRow) (n : Nat) :
    ((sortClaimsByPolicy l).take n).Pairwise ClaimPolicyAsc :=
  (List.sorted_insertionSort ClaimPolicyAsc l).sublist (List.take_sublist n _)

theorem ageDesc_row_imp (r s : CustomerRow) (h : AgeDesc r s) :
    RowAgeDescending (Row.customer r) (Row.customer s) := by
  intro a b ha hb
  unfold AgeDesc at h
  simp only [rowAge] at ha hb
  rw [ha, hb] at h
  simpa [optIntDescLe] using h

theorem custPolicyAsc_row_imp (r s : CustomerRow) (h : CustPolicyAsc r s) :
    RowPolicyAscending (Row.customer r) (Row.customer s) := by
  intro p q hp hq
  unfold CustPolicyAsc at h
  simp only [rowPolicy] at hp hq
  rw [hp, hq] at h
  simpa [optStrAscLe] using h

theorem claimPolicyAsc_row_imp (r s : ClaimRow) (h : ClaimPolicyAsc r s) :
    RowPolicyAscending (Row.claim r) (Row.claim s) := by
  intro p q hp hq
  unfold ClaimPolicyAsc at h
  simp only [rowPolicy] at hp hq
  rw [hp, hq] at h
  simpa [optStrAscLe] using h

theorem mem_take_sort_filter {α : Type} (sortf : List α → List α)
    (hperm : ∀ l : List α, (sortf l).Perm l) (p : α → Bool) (l : List α) (n : Nat)
    {x : α} (h : x ∈ (sortf (l.filter p)).take n) : x ∈ l ∧ p x = true := by
  have h1 : x ∈ sortf (l.filter p) := List.mem_of_mem_take h
  have h2 : x ∈ l.filter p := (hperm (l.filter p)).mem_iff.mp h1
  exact List.mem_filter.mp h2

theorem mem_take_sort_filter_of {α : Type} (sortf : List α → List α)
    (hperm : ∀ l : List α, (sortf l).Perm l) (p : α → Bool) (l : List α) (n : Nat)
    {x : α} (hx : x ∈ l) (hp : p x = true) (hn : (l.filter p).length ≤ n) :
    x ∈ (sortf (l.filter p)).take n := by
  have hlen : (sortf (l.filter p)).length ≤ n := by
    rw [(hperm (l.filter p)).length_eq]
    exact hn
  rw [List.take_of_length_le hlen]
  exact (hperm (l.filter p)).mem_iff.mpr (List.mem_filter.mpr ⟨hx, hp⟩)

theorem rows_execOn (db : Database) (t m : String) (n : Nat) :
    (get_problematic_records (execOn db) t m n).1.1 = (resolvedQuery t m n).eval db :=
  rfl

theorem query_component (ex : SqlQuery → Except String (List Row))
    (t m : String) (n : Nat) :
    (get_problematic_records ex t m n).1.2 = resolvedQuery t m n := by
  unfold get_problematic_records
  cases h : ex (resolvedQuery t m n) <;> simp [h]

theorem eval_length_le (db : Database) (q : SqlQuery) :
    (q.eval db).length ≤ q.rowLimit := by
  cases q <;>
    simp [SqlQuery.eval, SqlQuery.rowLimit, List.length_map, List.length_take]

theorem buildQueryUpper_rowLimit {tU mU : String} {n : Nat} {q : SqlQuery}
    (h : buildQueryUpper tU mU n = some q) : q.rowLimit = n := by
  unfold buildQueryUpper at h
  split_ifs at h <;> simp_all [SqlQuery.rowLimit] <;> subst h <;> rfl

theorem resolvedQuery_rowLimit (t m : String) (n : Nat) :
    (resolvedQuery t m n).rowLimit = n := by
  unfold resolvedQuery
  cases h : buildQuery t m n with
  | none => rfl
  | some q => exact buildQueryUpper_rowLimit h

theorem buildQueryUpper_eq_none_iff (tU mU : String) (n : Nat) :
    buildQueryUpper tU mU n = Option.none ↔ (tU, mU) ∉ dispatchPairs := by
  unfold buildQueryUpper dispatchPairs
  split_ifs with h1 h2 h3 h4 h5 h6 h7 h8 <;> simp_all <;> tauto

/-! ### Claims -/

/-- C1. For every row limit and every table of customer records, the
drill-down resolver invoked with table `CUSTOMERS_RAW` and metric
`INVALID_CUSTOMER_AGE_COUNT` selects exactly the rows whose age is non-NULL
and either below 18 or above 85 (so ages 18 and 85 are never selected, 17
and 86 are), returned in descending age order; on a table with ages
`[10, 18, 50, 85, 90, NULL]` it returns the rows with ages 90 and 10, with
90 first (whenever the limit admits both). -/
theorem claim_C1 :
    (∀ (db : Database) (n : Nat) (r : CustomerRow),
        Row.customer r
            ∈ (get_problematic_records (execOn db) "CUSTOMERS_RAW" "INVALID_CUSTOMER_AGE_COUNT" n).1.1 →
        r ∈ db.customers_raw ∧ ∃ a, r.age = some a ∧ (a < 18 ∨ 85 < a))
    ∧ (∀ (r : CustomerRow) (a : Int), r.age = some a →
        (invalidAgePredicate r = true ↔ (a < 18 ∨ 85 < a)))
    ∧ (∀ r : CustomerRow, r.age = Option.none → invalidAgePredicate r = false)
    ∧ (∀ (db : Database) (n : Nat),
        ((get_problematic_records (execOn db) "CUSTOMERS_RAW" "INVALID_CUSTOMER_AGE_COUNT" n).1.1).Pairwise
          RowAgeDescending)
    ∧ (∀ (db : Database) (n : Nat) (r : CustomerRow),
        r ∈ db.customers_raw → invalidAgePredicate r = true →
        (db.customers_raw.filter invalidAgePredicate).length ≤ n →
        Row.customer r
          ∈ (get_problematic_records (execOn db) "CUSTOMERS_RAW" "INVALID_CUSTOMER_AGE_COUNT" n).1.1)
    ∧ (∀ n : Nat, 2 ≤ n →
        (get_problematic_records (execOn scenarioDb) "CUSTOMERS_RAW" "INVALID_CUSTOMER_AGE_COUNT" n).1.1
          = [Row.customer { policy_number := some "POL005", age := some 90, broker_id := Option.none },
             Row.customer { policy_number := some "POL001", age := some 10, broker_id := Option.none }]) := by
  have hrows : ∀ (db : Database) (n : Nat),
      (get_problematic_records (execOn db) "CUSTOMERS_RAW" "INVALID_CUSTOMER_AGE_COUNT" n).1.1
        = ((sortByAgeDesc (db.customers_raw.filter invalidAgePredicate)).take n).map Row.customer :=
    fun db n => rfl
  refine ⟨?_, ?_, ?_, ?_, ?_, ?_⟩
  · intro db n r h
    rw [hrows, List.mem_map] at h
    obtain ⟨r2, h2, heq⟩ := h
    have hr2 : r2 = r := by injection heq
    rw [← hr2]
    have hm := mem_take_sort_filter sortByAgeDesc sortByAgeDesc_perm
      invalidAgePredicate db.customers_raw n h2
    refine ⟨hm.1, ?_⟩
    have hp := hm.2
    unfold invalidAgePredicate at hp
    cases ha : r2.age with
    | none => rw [ha] at hp; exact absurd hp (by simp)
    | some a =>
      rw [ha] at hp
      refine ⟨a, rfl, ?_⟩
      simpa using hp
  · intro r a ha
    unfold invalidAgePredicate
    rw [ha]
    simp
  · intro r ha
    unfold invalidAgePredicate
    rw [ha]
  · intro db n
    rw [hrows, List.pairwise_map]
    unfold sortByAgeDesc
    exact (take_sortByAgeDesc_pairwise _ n).imp
      (fun {a b} h => ageDesc_row_imp a b h)
  · intro db n r hr hp hn
    rw [hrows, List.mem_map]
    exact ⟨r, mem_take_sort_filter_of sortByAgeDesc sortByAgeDesc_perm
      invalidAgePredicate db.customers_raw n hr hp hn, rfl⟩
  · intro n hn
    rw [hrows]
    have hs : sortByAgeDesc (scenarioDb.customers_raw.filter invalidAgePredicate)
        = [{ policy_number := some "POL005", age := some 90, broker_id := Option.none },
           { policy_number := some "POL001", age := some 10, broker_id := Option.none }] := by
      decide
    rw [hs, List.take_of_length_le (by simpa using hn)]
    rfl

/-- C1 witness: the end-to-end scenario at the UI limit 100, the predicate
characterization at age 17, and both membership directions at concrete
rows. -/
theorem claim_C1_witness :
    (get_problematic_records (execOn scenarioDb) "CUSTOMERS_RAW" "INVALID_CUSTOMER_AGE_COUNT" 100).1.1
        = [Row.customer { policy_number := some "POL005", age := some 90, broker_id := Option.none },
           Row.customer { policy_number := some "POL001", age := some 10, broker_id := Option.none }]
    ∧ ({ policy_number := some "POL005", age := some 90, broker_id := Option.none } : CustomerRow)
          ∈ scenarioDb.customers_raw
    ∧ (invalidAgePredicate { policy_number := Option.none, age := some 17, broker_id := Option.none } = true
        ↔ ((17 : Int) < 18 ∨ 85 < (17 : Int)))
    ∧ invalidAgePredicate { policy_number := Option.none, age := Option.none, broker_id := Option.none } = false
    ∧ Row.customer ({ policy_number := some "POL001", age := some 10, broker_id := Option.none } : CustomerRow)
        ∈ (get_problematic_records (execOn scenarioDb) "CUSTOMERS_RAW" "INVALID_CUSTOMER_AGE_COUNT" 100).1.1 := by
  refine ⟨claim_C1.2.2.2.2.2 100 (by decide),
    (claim_C1.1 scenarioDb 100 _ ?_).1,
    claim_C1.2.1 _ 17 rfl,
    claim_C1.2.2.1 _ rfl,
    claim_C1.2.2.2.2.1 scenarioDb 100 _ (by decide) (by decide) (by decide)⟩
  rw [claim_C1.2.2.2.2.2 100 (by decide)]
  decide

/-- C4. The resolver uppercases both inputs before dispatch, so any two
`(table, metric)` spellings that agree up to letter case produce the same
dispatched query and the same executed query. -/
theorem claim_C4 :
    ∀ (t1 t2 m1 m2 : String) (n : Nat),
      pyUpper t1 = pyUpper t2 → pyUpper m1 = pyUpper m2 →
      buildQuery t1 m1 n = buildQuery t2 m2 n
        ∧ resolvedQuery t1 m1 n = resolvedQuery t2 m2 n := by
  intro t1 t2 m1 m2 n h1 h2
  unfold resolvedQuery buildQuery
  rw [h1, h2]
  exact ⟨rfl, rfl⟩

/-- C4 witness: the documented example pair, lower-case versus upper-case. -/
theorem claim_C4_witness :
    buildQuery "customers_raw" "invalid_customer_age_count" 50
        = buildQuery "CUSTOMERS_RAW" "INVALID_CUSTOMER_AGE_COUNT" 50
    ∧ resolvedQuery "customers_raw" "invalid_customer_age_count" 50
        = resolvedQuery "CUSTOMERS_RAW" "INVALID_CUSTOMER_AGE_COUNT" 50 :=
  claim_C4 "customers_raw" "CUSTOMERS_RAW" "invalid_customer_age_count"
    "INVALID_CUSTOMER_AGE_COUNT" 50 (by decide) (by decide)

/-- C5. The row limit is always honored: under the template semantics a
call with limit `n` never returns more than `n` rows, whatever the table
and metric; the limit defaults to 50 when not supplied; the drill-down UI
call site passes 100. -/
theorem claim_C5 :
    (∀ (db : Database) (t m : String) (n : Nat),
        ((get_problematic_records (execOn db) t m n).1.1).length ≤ n)
    ∧ (∀ (ex : SqlQuery → Except String (List Row)) (t m : String),
        get_problematic_records ex t m = get_problematic_records ex t m 50)
    ∧ (∀ (ex : SqlQuery → Except String (List Row)) (t m : String),
        display_drill_down_fetch ex t m = get_problematic_records ex t m 100) := by
  refine ⟨?_, fun ex t m => rfl, fun ex t m => rfl⟩
  intro db t m n
  rw [rows_execOn]
  have h := eval_length_le db (resolvedQuery t m n)
  rwa [resolvedQuery_rowLimit] at h

/-- C5 witness: the bound at a concrete database whose customers table has
more invalid-age rows than the limit. -/
theorem claim_C5_witness :
    ((get_problematic_records (execOn scenarioDb) "CUSTOMERS_RAW" "INVALID_CUSTOMER_AGE_COUNT" 1).1.1).length ≤ 1
    ∧ get_problematic_records (execOn scenarioDb) "CUSTOMERS_RAW" "INVALID_CUSTOMER_AGE_COUNT"
        = get_problematic_records (execOn scenarioDb) "CUSTOMERS_RAW" "INVALID_CUSTOMER_AGE_COUNT" 50 :=
  ⟨claim_C5.1 scenarioDb "CUSTOMERS_RAW" "INVALID_CUSTOMER_AGE_COUNT" 1,
   claim_C5.2.1 (execOn scenarioDb) "CUSTOMERS_RAW" "INVALID_CUSTOMER_AGE_COUNT"⟩

/-- C6. For every row limit, the resolver invoked with `CUSTOMERS_RAW` and
`INVALID_BROKER_ID_COUNT` selects exactly the rows whose `broker_id` is
non-NULL and fails to match `^BRK[0-9]{3}$`, in ascending policy-number
order, bounded by the limit. -/
theorem claim_C6 :
    (∀ (db : Database) (n : Nat),
        (get_problematic_records (execOn db) "CUSTOMERS_RAW" "INVALID_BROKER_ID_COUNT" n).1.1
          = ((sortCustomersByPolicy (db.customers_raw.filter invalidBrokerIdPredicate)).take n).map
              Row.customer)
    ∧ (∀ (r : CustomerRow) (b : String), r.broker_id = some b →
        (invalidBrokerIdPredicate r = true ↔ matchesBrokerIdPattern b = false))
    ∧ (∀ r : CustomerRow, r.broker_id = Option.none → invalidBrokerIdPredicate r = false)
    ∧ matchesBrokerIdPattern "BRK123" = true
    ∧ matchesBrokerIdPattern "BRK12" = false
    ∧ matchesBrokerIdPattern "BRKABC" = false
    ∧ matchesBrokerIdPattern "BRK1234" = false
    ∧ matchesBrokerIdPattern "XRK123" = false
    ∧ (∀ (db : Database) (n : Nat),
        ((get_problematic_records (execOn db) "CUSTOMERS_RAW" "INVALID_BROKER_ID_COUNT" n).1.1).Pairwise
          RowPolicyAscending)
    ∧ (∀ (db : Database) (n : Nat) (r : CustomerRow),
        Row.customer r
            ∈ (get_problematic_records (execOn db) "CUSTOMERS_RAW" "INVALID_BROKER_ID_COUNT" n).1.1 →
        r ∈ db.customers_raw ∧ ∃ b, r.broker_id = some b ∧ matchesBrokerIdPattern b = false) := by
  have hrows : ∀ (db : Database) (n : Nat),
      (get_problematic_records (execOn db) "CUSTOMERS_RAW" "INVALID_BROKER_ID_COUNT" n).1.1
        = ((sortCustomersByPolicy (db.customers_raw.filter invalidBrokerIdPredicate)).take n).map
            Row.customer :=
    fun db n => rfl
  refine ⟨hrows, ?_, ?_, by decide, by decide, by decide, by decide, by decide, ?_, ?_⟩
  · intro r b hb
    unfold invalidBrokerIdPredicate
    rw [hb]
    simp
  · intro r hb
    unfold invalidBrokerIdPredicate
    rw [hb]
  · intro db n
    rw [hrows, List.pairwise_map]
    unfold sortCustomersByPolicy
    exact (take_sortCustomersByPolicy_pairwise _ n).imp
      (fun {a b} h => custPolicyAsc_row_imp a b h)
  · intro db n r h
    rw [hrows, List.mem_map] at h
    obtain ⟨r2, h2, heq⟩ := h
    have hr2 : r2 = r := by injection heq
    rw [← hr2]
    have hm := mem_take_sort_filter sortCustomersByPolicy sortCustomersByPolicy_perm
      invalidBrokerIdPredicate db.customers_raw n h2
    refine ⟨hm.1, ?_⟩
    have hp := hm.2
    unfold invalidBrokerIdPredicate at hp
    cases hb : r2.broker_id with
    | none => rw [hb] at hp; exact absurd hp (by simp)
    | some b =>
      rw [hb] at hp
      refine ⟨b, rfl, ?_⟩
      simpa using hp

/-- C6 witness: the regex boundary checks and the predicate at a concrete
row with a malformed broker id. -/
theorem claim_C6_witness :
    matchesBrokerIdPattern "BRK123" = true
    ∧ matchesBrokerIdPattern "BRK12" = false
    ∧ (invalidBrokerIdPredicate
          { policy_number := some "POL001", age := Option.none, broker_id := some "BRK12" } = true
        ↔ matchesBrokerIdPattern "BRK12" = false)
    ∧ invalidBrokerIdPredicate
        { policy_number := some "POL001", age := Option.none, broker_id := Option.none } = false := by
  refine ⟨claim_C6.2.2.2.1, claim_C6.2.2.2.2.1, claim_C6.2.1 _ "BRK12" rfl, claim_C6.2.2.1 _ rfl⟩

/-- Error-branch behavior of the resolver: empty rows and the diagnostic
banner. -/
theorem gpr_error (ex : SqlQuery → Except String (List Row)) (t m : String) (n : Nat)
    (e : String) (h : ex (resolvedQuery t m n) = Except.error e) :
    (get_problematic_records ex t m n).1.1 = []
    ∧ Msg.error (execErrorText t m e) ∈ (get_problematic_records ex t m n).2 := by
  unfold get_problematic_records
  cases hb : buildQuery t m n <;> simp [h, hb]

/-- C2. If executing the dispatched query raises, the resolver catches it,
emits a diagnostic naming the metric and the table and containing the
exception text, and returns an empty result set together with the query it
had constructed; it returns normally in every case. -/
theorem claim_C2 :
    ∀ (ex : SqlQuery → Except String (List Row)) (t m : String) (n : Nat) (e : String),
      ex (resolvedQuery t m n) = Except.error e →
      (get_problematic_records ex t m n).1.1 = []
      ∧ (get_problematic_records ex t m n).1.2 = resolvedQuery t m n
      ∧ Msg.error (execErrorText t m e) ∈ (get_problematic_records ex t m n).2
      ∧ strContains (execErrorText t m e) m
      ∧ strContains (execErrorText t m e) t
      ∧ strContains (execErrorText t m e) e
      ∧ execErrorText t m e ≠ "" := by
  intro ex t m n e h
  refine ⟨(gpr_error ex t m n e h).1, query_component ex t m n,
    (gpr_error ex t m n e h).2, ?_, ?_, ?_, ?_⟩
  · exact ⟨"Error fetching problematic records for ", " on " ++ t ++ ": " ++ e,
      by simp [execErrorText, String.append_assoc]⟩
  · exact ⟨"Error fetching problematic records for " ++ m ++ " on ", ": " ++ e,
      by simp [execErrorText, String.append_assoc]⟩
  · exact ⟨"Error fetching problematic records for " ++ m ++ " on " ++ t ++ ": ", "",
      by simp [execErrorText, String.append_assoc, String.append_empty]⟩
  · intro hbad
    have hlen := congrArg String.length hbad
    have hpos : 0 < "Error fetching problematic records for ".length := by decide
    simp only [execErrorText, String.length_append] at hlen
    simp at hlen
    omega

/-- C2 witness: a failing executor at the documented example pair. -/
theorem claim_C2_witness :
    (get_problematic_records (fun _ => Except.error "Object does not exist")
        "CUSTOMERS_RAW" "INVALID_CUSTOMER_AGE_COUNT" 10).1.1 = []
    ∧ (get_problematic_records (fun _ => Except.error "Object does not exist")
        "CUSTOMERS_RAW" "INVALID_CUSTOMER_AGE_COUNT" 10).1.2
        = resolvedQuery "CUSTOMERS_RAW" "INVALID_CUSTOMER_AGE_COUNT" 10
    ∧ Msg.error (execErrorText "CUSTOMERS_RAW" "INVALID_CUSTOMER_AGE_COUNT" "Object does not exist")
        ∈ (get_problematic_records (fun _ => Except.error "Object does not exist")
            "CUSTOMERS_RAW" "INVALID_CUSTOMER_AGE_COUNT" 10).2
    ∧ strContains (execErrorText "CUSTOMERS_RAW" "INVALID_CUSTOMER_AGE_COUNT" "Object does not exist")
        "INVALID_CUSTOMER_AGE_COUNT"
    ∧ strContains (execErrorText "CUSTOMERS_RAW" "INVALID_CUSTOMER_AGE_COUNT" "Object does not exist")
        "CUSTOMERS_RAW"
    ∧ strContains (execErrorText "CUSTOMERS_RAW" "INVALID_CUSTOMER_AGE_COUNT" "Object does not exist")
        "Object does not exist"
    ∧ execErrorText "CUSTOMERS_RAW" "INVALID_CUSTOMER_AGE_COUNT" "Object does not exist" ≠ "" :=
  claim_C2 (fun _ => Except.error "Object does not exist") "CUSTOMERS_RAW"
    "INVALID_CUSTOMER_AGE_COUNT" 10 "Object does not exist" rfl

/-- C3. A `(table, metric)` pair is left without a dedicated query exactly
when its uppercased form is outside the dispatch set; in that case the
resolver does not fail: it warns that no specific logic exists and runs the
generic `SELECT * FROM <table> ORDER BY 1 LIMIT <limit>` fallback over the
uppercased table name. -/
theorem claim_C3 :
    ∀ (t m : String) (n : Nat),
      (buildQuery t m n = Option.none ↔ (pyUpper t, pyUpper m) ∉ dispatchPairs)
      ∧ ((pyUpper t, pyUpper m) ∉ dispatchPairs →
          resolvedQuery t m n = SqlQuery.fallback (pyUpper t) n
          ∧ (resolvedQuery t m n).render
              = "SELECT * FROM INSURANCE_WORKSHOP_DB.RAW_DATA." ++ pyUpper t
                  ++ " ORDER BY 1 LIMIT " ++ toString n
          ∧ ∀ ex : SqlQuery → Except String (List Row),
              Msg.warning (fallbackWarningText t m) ∈ (get_problematic_records ex t m n).2) := by
  intro t m n
  have hiff : buildQuery t m n = Option.none ↔ (pyUpper t, pyUpper m) ∉ dispatchPairs :=
    buildQueryUpper_eq_none_iff (pyUpper t) (pyUpper m) n
  refine ⟨hiff, fun hnot => ?_⟩
  have hnone : buildQuery t m n = Option.none := hiff.mpr hnot
  have hres : resolvedQuery t m n = SqlQuery.fallback (pyUpper t) n := by
    unfold resolvedQuery
    rw [hnone]
  refine ⟨hres, by rw [hres]; rfl, ?_⟩
  intro ex
  cases hx : ex (resolvedQuery t m n) <;>
    simp [get_problematic_records, hnone, hx]

/-- C3 witness: the documented unmatched pair. -/
theorem claim_C3_witness :
    (buildQuery "BROKERS_RAW" "UNKNOWN_METRIC" 25 = Option.none ↔
        (pyUpper "BROKERS_RAW", pyUpper "UNKNOWN_METRIC") ∉ dispatchPairs)
    ∧ resolvedQuery "BROKERS_RAW" "UNKNOWN_METRIC" 25
        = SqlQuery.fallback (pyUpper "BROKERS_RAW") 25
    ∧ Msg.warning (fallbackWarningText "BROKERS_RAW" "UNKNOWN_METRIC")
        ∈ (get_problematic_records (fun _ => Except.ok []) "BROKERS_RAW" "UNKNOWN_METRIC" 25).2 := by
  have h := claim_C3 "BROKERS_RAW" "UNKNOWN_METRIC" 25
  exact ⟨h.1, (h.2 (by decide)).1, (h.2 (by decide)).2.2 _⟩

/-- C7. Null-count and duplicate-count metrics, under either their
qualified or bare names and for both tables, dispatch to the corresponding
pre-built remote view (no predicate is evaluated locally), ordered by
policy number and bounded to the limit. -/
theorem claim_C7 :
    ∀ (n : Nat) (db : Database),
      buildQuery "CUSTOMERS_RAW" "SNOWFLAKE.CORE.NULL_COUNT" n = some (SqlQuery.customersNullView n)
      ∧ buildQuery "CUSTOMERS_RAW" "NULL_COUNT" n = some (SqlQuery.customersNullView n)
      ∧ buildQuery "CUSTOMERS_RAW" "SNOWFLAKE.CORE.DUPLICATE_COUNT" n
          = some (SqlQuery.customersDupView n)
      ∧ buildQuery "CUSTOMERS_RAW" "DUPLICATE_COUNT" n = some (SqlQuery.customersDupView n)
      ∧ buildQuery "CLAIMS_RAW" "SNOWFLAKE.CORE.NULL_COUNT" n = some (SqlQuery.claimsNullView n)
      ∧ buildQuery "CLAIMS_RAW" "NULL_COUNT" n = some (SqlQuery.claimsNullView n)
      ∧ buildQuery "CLAIMS_RAW" "SNOWFLAKE.CORE.DUPLICATE_COUNT" n
          = some (SqlQuery.claimsDupView n)
      ∧ buildQuery "CLAIMS_RAW" "DUPLICATE_COUNT" n = some (SqlQuery.claimsDupView n)
      ∧ (SqlQuery.customersNullView n).eval db
          = ((sortCustomersByPolicy db.customers_with_null_policy_numbers).take n).map Row.customer
      ∧ (SqlQuery.customersDupView n).eval db
          = ((sortCustomersByPolicy db.customers_with_duplicate_policies).take n).map Row.customer
      ∧ (SqlQuery.claimsNullView n).eval db
          = ((sortClaimsByPolicy db.claims_with_null_policy_numbers).take n).map Row.claim
      ∧ (SqlQuery.claimsDupView n).eval db
          = ((sortClaimsByPolicy db.claims_with_duplicate_policies).take n).map Row.claim
      ∧ ((SqlQuery.customersNullView n).eval db).Pairwise RowPolicyAscending
      ∧ ((SqlQuery.customersDupView n).eval db).Pairwise RowPolicyAscending
      ∧ ((SqlQuery.claimsNullView n).eval db).Pairwise RowPolicyAscending
      ∧ ((SqlQuery.claimsDupView n).eval db).Pairwise RowPolicyAscending
      ∧ ((SqlQuery.customersNullView n).eval db).length ≤ n
      ∧ ((SqlQuery.customersDupView n).eval db).length ≤ n
      ∧ ((SqlQuery.claimsNullView n).eval db).length ≤ n
      ∧ ((SqlQuery.claimsDupView n).eval db).length ≤ n := by
  intro n db
  have hcust : ∀ (l : List CustomerRow),
      (((sortCustomersByPolicy l).take n).map Row.customer).Pairwise RowPolicyAscending := by
    intro l
    rw [List.pairwise_map]
    exact (take_sortCustomersByPolicy_pairwise l n).imp
      (fun {a b} h => custPolicyAsc_row_imp a b h)
  have hclaim : ∀ (l : List ClaimRow),
      (((sortClaimsByPolicy l).take n).map Row.claim).Pairwise RowPolicyAscending := by
    intro l
    rw [List.pairwise_map]
    exact (take_sortClaimsByPolicy_pairwise l n).imp
      (fun {a b} h => claimPolicyAsc_row_imp a b h)
  refine ⟨rfl, rfl, rfl, rfl, rfl, rfl, rfl, rfl, rfl, rfl, rfl, rfl,
    hcust _, hcust _, hclaim _, hclaim _, ?_, ?_, ?_, ?_⟩ <;>
    simpa [SqlQuery.rowLimit] using eval_length_le db _

/-- C8 counterexample: a single query-execution failure (the first query of
the risk fetcher) makes the risk dashboard emit an error banner and halt
rendering early at its `st.stop()` guard, so a fetch failure can be fatal
to the page. -/
theorem claim_C8_counterexample :
    (run_risk_dashboard riskFirstQueryDown).outcome = RenderOutcome.haltedEarly := rfl

/-- C8 amended. Per-query failures inside the quality fetcher are non-fatal
(the page still finishes, with diagnostic banners); but whenever a fetcher
returns an empty data dict — which the risk and governance fetchers do as
soon as any of their queries raises, and the quality fetcher does when its
fetch fails as a whole — the module body emits an error banner and halts
rendering early via `st.stop()` instead of finishing. -/
theorem claim_C8_amended :
    (∀ subs : QualitySubFetches,
        (run_quality_dashboard (Except.ok subs)).outcome = RenderOutcome.finished)
    ∧ (∀ e : String,
        (run_quality_dashboard (Except.error e)).outcome = RenderOutcome.haltedEarly
        ∧ Msg.error ("Error fetching quality monitoring data: " ++ e)
            ∈ (run_quality_dashboard (Except.error e)).msgs)
    ∧ (∀ (subs : QualitySubFetches) (e : String),
        subs.relationship_metrics = Except.error e →
        Msg.warning ("Could not fetch relationship metrics: " ++ e)
          ∈ (run_quality_dashboard (Except.ok subs)).msgs)
    ∧ (∀ subs : RiskSubFetches,
        ((run_risk_dashboard subs).outcome = RenderOutcome.finished
          ↔ firstRiskError subs = Option.none))
    ∧ (∀ (subs : RiskSubFetches) (e : String), firstRiskError subs = some e →
        Msg.error ("Error fetching risk analytics data: " ++ e)
          ∈ (run_risk_dashboard subs).msgs)
    ∧ (∀ (subs : GovernanceSubFetches) (access : Except String Unit),
        ((run_governance_dashboard subs access).outcome = RenderOutcome.finished
          ↔ firstGovernanceError subs = Option.none))
    ∧ (∀ (subs : GovernanceSubFetches) (access : Except String Unit) (e : String),
        firstGovernanceError subs = some e →
        Msg.error ("Error fetching governance data: " ++ e)
          ∈ (run_governance_dashboard subs access).msgs)
    ∧ (∀ (subs : GovernanceSubFetches) (e : String),
        Msg.warning ("Access monitoring data not available: " ++ e)
          ∈ (run_governance_dashboard subs (Except.error e)).msgs) := by
  refine ⟨fun subs => rfl, fun e => ⟨rfl, ?_⟩, ?_, ?_, ?_, ?_, ?_, ?_⟩
  · simp [run_quality_dashboard, get_quality_monitoring_data]
  · intro subs e h
    simp [run_quality_dashboard, get_quality_monitoring_data, simpleBlockMsgs, h]
  · intro subs
    cases h : firstRiskError subs <;>
      simp [run_risk_dashboard, get_risk_analytics_data, h]
  · intro subs e h
    simp [run_risk_dashboard, get_risk_analytics_data, h]
  · intro subs access
    cases h : firstGovernanceError subs <;>
      simp [run_governance_dashboard, get_governance_data, h]
  · intro subs access e h
    cases hx : access <;>
      simp [run_governance_dashboard, get_governance_data, get_access_monitoring, h, hx]
  · intro subs e
    cases h : firstGovernanceError subs <;>
      simp [run_governance_dashboard, get_governance_data, get_access_monitoring, h]

/-- C8 witness: the amended behavior at concrete fetch outcomes — the
quality page finishes despite two failed blocks and shows the block
warning; the risk page with its first query down is not `finished` and
shows the fetch error banner. -/
theorem claim_C8_amended_witness :
    (run_quality_dashboard (Except.ok
        { entity_scores := Except.ok 3
          entity_scores_view_check := Except.ok 1
          entity_scores_fallback := Except.ok ()
          quality_summary := Except.error "view missing"
          quality_summary_view_check := Except.ok 0
          quality_summary_fallback := Except.ok ()
          relationship_metrics := Except.error "join failed"
          quality_issues := Except.ok ()
          dmf_status := Except.ok ()
          row_counts := Except.ok () })).outcome = RenderOutcome.finished
    ∧ Msg.warning ("Could not fetch relationship metrics: " ++ "join failed")
        ∈ (run_quality_dashboard (Except.ok
            { entity_scores := Except.ok 3
              entity_scores_view_check := Except.ok 1
              entity_scores_fallback := Except.ok ()
              quality_summary := Except.error "view missing"
              quality_summary_view_check := Except.ok 0
              quality_summary_fallback := Except.ok ()
              relationship_metrics := Except.error "join failed"
              quality_issues := Except.ok ()
              dmf_status := Except.ok ()
              row_counts := Except.ok () })).msgs
    ∧ ((run_risk_dashboard riskFirstQueryDown).outcome = RenderOutcome.finished
        ↔ firstRiskError riskFirstQueryDown = Option.none)
    ∧ Msg.error ("Error fetching risk analytics data: "
          ++ "SQL compilation error: Object RISK_INTELLIGENCE_DASHBOARD does not exist or not authorized.")
        ∈ (run_risk_dashboard riskFirstQueryDown).msgs :=
  ⟨claim_C8_amended.1 _,
   claim_C8_amended.2.2.1 _ "join failed" rfl,
   claim_C8_amended.2.2.2.1 riskFirstQueryDown,
   claim_C8_amended.2.2.2.2.1 riskFirstQueryDown _ rfl⟩

/-- C9. `parse_broker_performance_analysis` is total: it yields a record
exactly when the input is a dict or a string that decodes to a JSON object,
and otherwise yields `None`; each of the seven extracted fields falls back
to its default (`0`, and `UNKNOWN` for the tier) exactly when absent, and
is passed through when present; a string input that decodes to an object
behaves like that object. -/
theorem claim_C9 :
    ∀ (loads : String → Except Unit PyVal) (pj : PyVal),
      ((parse_broker_performance_analysis loads pj).isSome = true ↔
        ((∃ entries, pj = PyVal.dict entries)
          ∨ (∃ s entries, pj = PyVal.str s ∧ loads s = Except.ok (PyVal.dict entries))))
      ∧ (∀ (entries : List (String × PyVal)) (r : PerfAnalysis),
          parse_broker_performance_analysis loads (PyVal.dict entries) = some r →
          (entries.lookup "total_score" = Option.none → r.total_score = PyVal.num 0)
          ∧ (∀ v, entries.lookup "total_score" = some v → r.total_score = v)
          ∧ (entries.lookup "performance_tier" = Option.none →
              r.performance_tier = PyVal.str "UNKNOWN")
          ∧ (∀ v, entries.lookup "performance_tier" = some v → r.performance_tier = v)
          ∧ (entries.lookup "satisfaction_component" = Option.none →
              r.satisfaction_component = PyVal.num 0)
          ∧ (entries.lookup "experience_component" = Option.none →
              r.experience_component = PyVal.num 0)
          ∧ (entries.lookup "training_component" = Option.none →
              r.training_component = PyVal.num 0)
          ∧ (entries.lookup "portfolio_component" = Option.none →
              r.portfolio_component = PyVal.num 0)
          ∧ (entries.lookup "risk_management_component" = Option.none →
              r.risk_management_component = PyVal.num 0))
      ∧ (∀ (s : String) (entries : List (String × PyVal)),
          loads s = Except.ok (PyVal.dict entries) →
          parse_broker_performance_analysis loads (PyVal.str s)
            = parse_broker_performance_analysis loads (PyVal.dict entries)) := by
  intro loads pj
  refine ⟨?_, ?_, ?_⟩
  · cases pj with
    | str s =>
      cases hl : loads s with
      | ok v => cases v <;> simp [parse_broker_performance_analysis, hl]
      | error err => simp [parse_broker_performance_analysis, hl]
    | dict entries => simp [parse_broker_performance_analysis]
    | none => simp [parse_broker_performance_analysis]
    | bool b => simp [parse_broker_performance_analysis]
    | num x => simp [parse_broker_performance_analysis]
    | list xs => simp [parse_broker_performance_analysis]
  · intro entries r h
    simp only [parse_broker_performance_analysis, Option.some.injEq] at h
    subst h
    refine ⟨?_, ?_, ?_, ?_, ?_, ?_, ?_, ?_, ?_⟩ <;>
      first
        | (intro hk; simp [perfFromEntries, pyDictGet, hk])
        | (intro v hk; simp [perfFromEntries, pyDictGet, hk])
  · intro s entries hl
    simp [parse_broker_performance_analysis, hl]

/-- C9 witness: the parser at a concrete decoded object — present field
passed through, absent tier defaulted, string input delegating to the
decoded dict. -/
theorem claim_C9_witness :
    (parse_broker_performance_analysis loads0
        (PyVal.dict [("total_score", PyVal.num 88)])).isSome = true
    ∧ (perfFromEntries [("total_score", PyVal.num 88)]).performance_tier = PyVal.str "UNKNOWN"
    ∧ (perfFromEntries [("total_score", PyVal.num 88)]).total_score = PyVal.num 88
    ∧ parse_broker_performance_analysis loads0 (PyVal.str "valid")
        = parse_broker_performance_analysis loads0
            (PyVal.dict [("total_score", PyVal.num 88)]) := by
  have h := claim_C9 loads0 (PyVal.dict [("total_score", PyVal.num 88)])
  exact ⟨h.1.mpr (Or.inl ⟨_, rfl⟩),
    (h.2.1 _ _ rfl).2.2.1 rfl,
    (h.2.1 _ _ rfl).2.1 (PyVal.num 88) rfl,
    (claim_C9 loads0 PyVal.none).2.2 "valid" _ rfl⟩

/-- C10. `calculate_compliance_score` returns 0 on an empty table and
otherwise 100 times the fraction of rows whose `ENFORCEMENT_STATUS` is
`ENFORCED`; the result always lies between 0 and 100. -/
theorem claim_C10 :
    (∀ policy_data : List PolicyRow, policy_data = [] →
        calculate_compliance_score policy_data = 0)
    ∧ (∀ policy_data : List PolicyRow, policy_data ≠ [] →
        calculate_compliance_score policy_data
          = 100 * (((policy_data.filter fun r =>
                decide (r.enforcement_status = "ENFORCED")).length : ℚ)
              / (policy_data.length : ℚ)))
    ∧ (∀ policy_data : List PolicyRow,
        0 ≤ calculate_compliance_score policy_data
        ∧ calculate_compliance_score policy_data ≤ 100) := by
  have hformula : ∀ policy_data : List PolicyRow, policy_data ≠ [] →
      calculate_compliance_score policy_data
        = (((policy_data.filter fun r =>
              decide (r.enforcement_status = "ENFORCED")).length : ℚ)
            / (policy_data.length : ℚ)) * 100 := by
    intro pd h
    unfold calculate_compliance_score
    rw [if_neg (by simpa [List.isEmpty_iff] using h),
      if_pos (List.length_pos.mpr h)]
  refine ⟨?_, ?_, ?_⟩
  · intro pd h
    subst h
    rfl
  · intro pd h
    rw [hformula pd h]
    ring
  · intro pd
    by_cases h : pd = []
    · subst h
      constructor <;> norm_num [calculate_compliance_score]
    · rw [hformula pd h]
      have ht : (0 : ℚ) < (pd.length : ℚ) := by
        exact_mod_cast List.length_pos.mpr h
      have hle : ((pd.filter fun r =>
            decide (r.enforcement_status = "ENFORCED")).length : ℚ) ≤ (pd.length : ℚ) := by
        exact_mod_cast List.length_filter_le _ pd
      constructor
      · positivity
      · calc (((pd.filter fun r =>
              decide (r.enforcement_status = "ENFORCED")).length : ℚ)
              / (pd.length : ℚ)) * 100
              ≤ 1 * 100 := by
                apply mul_le_mul_of_nonneg_right ((div_le_one ht).mpr hle)
                norm_num
          _ = 100 := by norm_num

/-- C10 witness: the empty log scores 0; one enforced row out of two scores
50; the bounds hold there. -/
theorem claim_C10_witness :
    calculate_compliance_score [] = 0
    ∧ calculate_compliance_score samplePolicies = 50
    ∧ 0 ≤ calculate_compliance_score samplePolicies
    ∧ calculate_compliance_score samplePolicies ≤ 100 := by
  have h2 := claim_C10.2.1 samplePolicies (by decide)
  have h3 : ((samplePolicies.filter fun r =>
      decide (r.enforcement_status = "ENFORCED")).length) = 1 := by decide
  have h4 : samplePolicies.length = 2 := rfl
  refine ⟨claim_C10.1 [] rfl, ?_, (claim_C10.2.2 samplePolicies).1,
    (claim_C10.2.2 samplePolicies).2⟩
  rw [h2, h3, h4]
  norm_num

end SRGWorkshop
